import Mathlib

/-!
Shallow embedding of `src/core/src/avm2/script_object.rs` (Ruffle's default
AVM2 object implementation) together with the external collaborator types it
relies on (`QName`, `Value`, `Property`, `Executable`), which are not part of
the sources and are therefore modelled from the specification.

Heap handles (`Object<'gc>`) are modelled as natural-number allocation
addresses in an explicit heap; the garbage-collection plumbing
(`GcCell`, `MutationContext`) is erased, since it only gates mutation and has
no observable effect on the data semantics verified here.
-/

deriving instance DecidableEq for Except

/-- Modelled from the spec: `Object<'gc>` handles (crate::avm2::object) are
shared references whose identity is the allocation address; we model a handle
as a natural-number address into an explicit heap. -/
abbrev Obj := Nat

/-- Modelled from the spec: `Executable<'gc>` (crate::avm2::function) is an
opaque callable; only its identity matters to this core, so we model it as a
natural-number identifier. -/
abbrev Executable := Nat

/-- Modelled from the spec: `QName` (crate::avm2::names) is a namespace plus
local-name pair, an opaque hashable/equatable key type. -/
structure QName where
  ns : Nat
  localName : Nat
deriving DecidableEq

/-- Modelled from the spec: `Value<'gc>` (crate::avm2::value) is the runtime
value representation with a distinguished "no value" variant (`Undefined`);
other payloads are opaque to this core. -/
inductive Value where
  | undefined
  | number (n : Nat)
  | object (o : Obj)
deriving DecidableEq

/-- Error kinds of this core, per spec section 7 (the source builds these as
descriptive strings; we keep the slot index of the out-of-bounds message). -/
inductive Error where
  | slotOutOfBounds (id : Nat)
  | missingAccessor
  | notVirtual
deriving DecidableEq

/-- Modelled from the spec: `Property<'gc>` (crate::avm2::property) is the
closed variant `Dynamic(Value)` | `Method(Callable)` |
`Virtual{getter: Option<Callable>, setter: Option<Callable>}`. -/
inductive Property where
  | dynamic (value : Value)
  | method (function : Obj)
  | virtualProp (getter : Option Executable) (setter : Option Executable)
deriving DecidableEq

/-- Modelled from the spec: a `get_property` outcome is either an immediate
value or a deferred result that invokes a callable on a receiver. -/
inductive ReturnValue where
  | immediate (value : Value)
  | deferred (callable : Executable) (receiver : Obj)
deriving DecidableEq

/-- Observable effect of a successful `set_property`: the value was stored in
the registry, or a setter callable was invoked on the receiver with the value
(a deferred invocation driven by the caller). -/
inductive SetEffect where
  | stored
  | invoked (setter : Executable) (receiver : Obj) (arg : Value)
deriving DecidableEq

/-- Embedding of `HashMap::get`: association-list lookup by key. -/
def lookupKey (m : List (QName × Property)) (k : QName) : Option Property :=
  match m with
  | [] => none
  | (k', v) :: rest => if k' = k then some v else lookupKey rest k

/-- Embedding of `HashMap::insert`: replace the binding of `k` if present,
otherwise append it (keys stay unique). -/
def insertKey (m : List (QName × Property)) (k : QName) (v : Property) :
    List (QName × Property) :=
  match m with
  | [] => [(k, v)]
  | (k', v') :: rest => if k' = k then (k, v) :: rest else (k', v') :: insertKey rest k v

namespace Property

/-- Modelled from the spec: `Property::new_dynamic_property` wraps a plain
stored value. -/
def new_dynamic_property (value : Value) : Property :=
  .dynamic value

/-- Modelled from the spec: `Property::new_method` wraps a fixed callable. -/
def new_method (function : Obj) : Property :=
  .method function

/-- Modelled from the spec: `Property::new_virtual` is an accessor pair with
both halves absent. -/
def new_virtual : Property :=
  .virtualProp none none

/-- Modelled from the spec: `Property::get` — Dynamic returns its value
immediately; Method returns a value wrapping the callable (binding to the
receiver is abstracted away); Virtual invokes the getter half with the current
object as receiver, returning a deferred result, and fails with
MissingAccessor when the getter half is absent. -/
def get (p : Property) (thisObj : Obj) : Except Error ReturnValue :=
  match p with
  | .dynamic v => .ok (.immediate v)
  | .method f => .ok (.immediate (.object f))
  | .virtualProp (some g) _ => .ok (.deferred g thisObj)
  | .virtualProp none _ => .error .missingAccessor

/-- Modelled from the spec: `Property::set` — Dynamic is overwritten in
place; Virtual with a setter invokes the setter with receiver and value
(registry entry unchanged); Virtual without a setter fails with
MissingAccessor; a Method entry is silently replaced by a Dynamic value
(the default, intentionally loose policy of spec section 9). -/
def set (p : Property) (thisObj : Obj) (value : Value) :
    Except Error (Property × SetEffect) :=
  match p with
  | .dynamic _ => .ok (.dynamic value, .stored)
  | .method _ => .ok (.dynamic value, .stored)
  | .virtualProp g (some s) => .ok (.virtualProp g (some s), .invoked s thisObj value)
  | .virtualProp _ none => .error .missingAccessor

/-- Modelled from the spec: `Property::install_virtual_getter` attaches the
getter half, preserving the setter half; on a non-Virtual entry the install
fails and leaves the entry unchanged (the spec's accessor state machine is
defined only over Absent/GetterOnly/SetterOnly/Full, and a Virtual is never
silently downgraded nor a non-Virtual silently upgraded). -/
def install_virtual_getter (p : Property) (function : Executable) :
    Except Error Property :=
  match p with
  | .virtualProp _ s => .ok (.virtualProp (some function) s)
  | _ => .error .notVirtual

/-- Modelled from the spec: `Property::install_virtual_setter`, symmetric to
`install_virtual_getter`. -/
def install_virtual_setter (p : Property) (function : Executable) :
    Except Error Property :=
  match p with
  | .virtualProp g _ => .ok (.virtualProp g (some function))
  | _ => .error .notVirtual

end Property

/-- Embedding of `ScriptObjectData<'gc>`: named properties, indexed slots,
and the implicit prototype link. -/
structure ScriptObjectData where
  values : List (QName × Property)
  slots : List Value
  proto : Option Obj
deriving DecidableEq

namespace ScriptObjectData

/-- Embedding of `ScriptObjectData::base_new`. -/
def base_new (proto : Option Obj) : ScriptObjectData :=
  { values := [], slots := [], proto := proto }

/-- Embedding of `ScriptObjectData::get_property`: consult own storage only;
absence yields `Ok(Value::Undefined.into())`. -/
def get_property (d : ScriptObjectData) (name : QName) (thisObj : Obj) :
    Except Error ReturnValue :=
  match lookupKey d.values name with
  | some prop => prop.get thisObj
  | none => .ok (.immediate .undefined)

/-- Embedding of `ScriptObjectData::set_property`: an existing entry is set
through `Property::set` (mutating it in place); an absent name auto-vivifies
a new Dynamic entry. Returns the post-state paired with the result; on an
error the registry is untouched, as in the source (`Property::set` mutates
nothing on its error path). -/
def set_property (d : ScriptObjectData) (name : QName) (value : Value)
    (thisObj : Obj) : ScriptObjectData × Except Error SetEffect :=
  match lookupKey d.values name with
  | some prop =>
    match prop.set thisObj value with
    | .ok (p, eff) => ({ d with values := insertKey d.values name p }, .ok eff)
    | .error e => (d, .error e)
  | none =>
    ({ d with values := insertKey d.values name (Property.new_dynamic_property value) },
      .ok .stored)

/-- Embedding of `ScriptObjectData::get_slot`: `slots.get(id).cloned()` or an
out-of-bounds error. -/
def get_slot (d : ScriptObjectData) (id : Nat) : Except Error Value :=
  match d.slots[id]? with
  | some v => .ok v
  | none => .error (.slotOutOfBounds id)

/-- Embedding of `ScriptObjectData::set_slot`: overwrite in place when the
index is in bounds, otherwise an out-of-bounds error with the state
untouched. -/
def set_slot (d : ScriptObjectData) (id : Nat) (value : Value) :
    ScriptObjectData × Except Error Unit :=
  if id < d.slots.length then
    ({ d with slots := d.slots.set id value }, .ok ())
  else
    (d, .error (.slotOutOfBounds id))

/-- Embedding of `ScriptObjectData::has_property`: `values.get(name).is_some()`. -/
def has_property (d : ScriptObjectData) (name : QName) : Bool :=
  (lookupKey d.values name).isSome

/-- Embedding of `ScriptObjectData::install_method`: unconditional
insert/replace of a Method entry. -/
def install_method (d : ScriptObjectData) (name : QName) (function : Obj) :
    ScriptObjectData :=
  { d with values := insertKey d.values name (Property.new_method function) }

/-- Embedding of `ScriptObjectData::install_getter`: insert an empty Virtual
when the name is absent, then attach the getter half via
`Property::install_virtual_getter`. The returned state reflects the `&mut`
mutation even when the attach fails. -/
def install_getter (d : ScriptObjectData) (name : QName) (function : Executable) :
    ScriptObjectData × Except Error Unit :=
  let values :=
    if (lookupKey d.values name).isSome then d.values
    else insertKey d.values name Property.new_virtual
  match lookupKey values name with
  | some prop =>
    match prop.install_virtual_getter function with
    | .ok p => ({ d with values := insertKey values name p }, .ok ())
    | .error e => ({ d with values := values }, .error e)
  | none => ({ d with values := values }, .error .notVirtual)

/-- Embedding of `ScriptObjectData::install_setter`, symmetric to
`install_getter`. -/
def install_setter (d : ScriptObjectData) (name : QName) (function : Executable) :
    ScriptObjectData × Except Error Unit :=
  let values :=
    if (lookupKey d.values name).isSome then d.values
    else insertKey d.values name Property.new_virtual
  match lookupKey values name with
  | some prop =>
    match prop.install_virtual_setter function with
    | .ok p => ({ d with values := insertKey values name p }, .ok ())
    | .error e => ({ d with values := values }, .error e)
  | none => ({ d with values := values }, .error .notVirtual)

/-- Embedding of `ScriptObjectData::install_dynamic_property`: unconditional
insert/replace as Dynamic; always succeeds. -/
def install_dynamic_property (d : ScriptObjectData) (name : QName)
    (value : Value) : ScriptObjectData × Except Error Unit :=
  ({ d with values := insertKey d.values name (Property.new_dynamic_property value) },
    .ok ())

end ScriptObjectData

/-- Explicit heap standing in for the garbage-collected arena: a bump
allocator of `ScriptObjectData` records addressed by `Obj` handles. -/
structure Heap where
  next : Obj
  store : Obj → Option ScriptObjectData

/-- Allocation (`GcCell::allocate`): the new handle is the next fresh
address. -/
def Heap.allocate (h : Heap) (d : ScriptObjectData) : Obj × Heap :=
  (h.next, { next := h.next + 1,
             store := fun o => if o = h.next then some d else h.store o })

/-- Reading `proto()` through a handle: `none` when the handle is dangling. -/
def Heap.protoOf (h : Heap) (o : Obj) : Option (Option Obj) :=
  (h.store o).map ScriptObjectData.proto

namespace ScriptObject

/-- Embedding of `ScriptObject::bare_object`: allocate storage with no
prototype. -/
def bare_object (h : Heap) : Obj × Heap :=
  h.allocate (ScriptObjectData.base_new none)

/-- Embedding of `ScriptObject::object`: allocate storage with the given
prototype. -/
def object (h : Heap) (proto : Obj) : Obj × Heap :=
  h.allocate (ScriptObjectData.base_new (some proto))

/-- Embedding of `ScriptObject::construct`: the default policy allocates a
new object whose prototype is the invoked object; the arguments are ignored
(`_args`) and the operation is infallible here. -/
def construct (thisObj : Obj) (args : List Value) (h : Heap) :
    Except Error (Obj × Heap) :=
  .ok (object h thisObj)

end ScriptObject

/-- The exposed mutating operations of the contract, used to quantify over
"any sequence of operations". -/
inductive Op where
  | setProp (name : QName) (value : Value) (thisObj : Obj)
  | setSlot (id : Nat) (value : Value)
  | instMethod (name : QName) (function : Obj)
  | instGetter (name : QName) (function : Executable)
  | instSetter (name : QName) (function : Executable)
  | instDyn (name : QName) (value : Value)
deriving DecidableEq

/-- Run one exposed operation, returning the post-state (the `&mut` receiver
after the call) and whether the operation succeeded. -/
def applyOp (op : Op) (d : ScriptObjectData) : ScriptObjectData × Except Error Unit :=
  match op with
  | .setProp n v t =>
    let r := d.set_property n v t
    (r.1, r.2.map fun _ => ())
  | .setSlot i v => d.set_slot i v
  | .instMethod n f => (d.install_method n f, .ok ())
  | .instGetter n g => d.install_getter n g
  | .instSetter n s => d.install_setter n s
  | .instDyn n v => d.install_dynamic_property n v

/-- Run a sequence of exposed operations, threading the state (successful
runs are the special case in which every step's result is `ok`). -/
def runOps (l : List Op) (d : ScriptObjectData) : ScriptObjectData :=
  match l with
  | [] => d
  | op :: rest => runOps rest (applyOp op d).1

theorem lookup_insert_self (m : List (QName × Property)) (k : QName) (v : Property) :
    lookupKey (insertKey m k v) k = some v := by
  induction m with
  | nil => simp [insertKey, lookupKey]
  | cons hd tl ih =>
    obtain ⟨k', v'⟩ := hd
    by_cases h : k' = k
    · simp [insertKey, lookupKey, h]
    · simp [insertKey, lookupKey, h, ih]

theorem applyOp_slots_length (op : Op) (d : ScriptObjectData) :
    ((applyOp op d).1).slots.length = d.slots.length := by
  cases op with
  | setProp n v t =>
    simp only [applyOp, ScriptObjectData.set_property]
    cases lookupKey d.values n with
    | none => simp
    | some p =>
      cases hp : p.set t v with
      | ok pe => obtain ⟨p', eff⟩ := pe; simp [hp]
      | error e => simp [hp]
  | setSlot i v =>
    simp only [applyOp, ScriptObjectData.set_slot]
    split <;> simp
  | instMethod n f => simp [applyOp, ScriptObjectData.install_method]
  | instGetter n g =>
    simp only [applyOp, ScriptObjectData.install_getter]
    split <;> (try split) <;> simp
  | instSetter n s =>
    simp only [applyOp, ScriptObjectData.install_setter]
    split <;> (try split) <;> simp
  | instDyn n v => simp [applyOp, ScriptObjectData.install_dynamic_property]

theorem runOps_slots_length (l : List Op) (d : ScriptObjectData) :
    (runOps l d).slots.length = d.slots.length := by
  induction l generalizing d with
  | nil => rfl
  | cons op rest ih =>
    rw [runOps, ih, applyOp_slots_length]

/-- C2: absence of a property is not an error and is judged on own storage
only — for any own registry without an entry for `n` (whatever the slots and
whatever the prototype link holds, so in particular even when `n` is present
on the prototype object), `has_property` returns `false` and `get_property`
succeeds with the immediate `Value::Undefined`; neither consults the
prototype chain (both are functions of the own registry alone). -/
theorem absent_property_not_error (vals : List (QName × Property))
    (slots : List Value) (p : Option Obj) (n : QName) (thisObj : Obj)
    (h : lookupKey vals n = none) :
    (ScriptObjectData.mk vals slots p).has_property n = false ∧
    (ScriptObjectData.mk vals slots p).get_property n thisObj =
      .ok (.immediate .undefined) := by
  constructor <;> simp [ScriptObjectData.has_property, ScriptObjectData.get_property, h]

/-- Witness for `absent_property_not_error` at a concrete object whose
prototype link is set (to object 7) while its own registry is empty. -/
theorem absent_property_not_error_witness :
    (ScriptObjectData.mk [] [] (some 7)).has_property ⟨0, 0⟩ = false ∧
    (ScriptObjectData.mk [] [] (some 7)).get_property ⟨0, 0⟩ 0 =
      .ok (.immediate .undefined) :=
  absent_property_not_error [] [] (some 7) ⟨0, 0⟩ 0 (by decide)

/-- C3: auto-vivification — when `n` has no registry entry, `set_property`
succeeds with the stored effect and creates a Dynamic entry holding `v`, so
afterwards `has_property` is `true` and `get_property` returns `v`
immediately. -/
theorem set_property_vivifies (d : ScriptObjectData) (n : QName) (v : Value)
    (thisObj : Obj) (h : lookupKey d.values n = none) :
    (d.set_property n v thisObj).2 = .ok .stored ∧
    lookupKey (d.set_property n v thisObj).1.values n = some (.dynamic v) ∧
    (d.set_property n v thisObj).1.has_property n = true ∧
    (d.set_property n v thisObj).1.get_property n thisObj = .ok (.immediate v) := by
  refine ⟨?_, ?_, ?_, ?_⟩ <;>
    simp [ScriptObjectData.set_property, h, ScriptObjectData.has_property,
      ScriptObjectData.get_property, lookup_insert_self,
      Property.new_dynamic_property, Property.get]

/-- Witness for `set_property_vivifies` on an empty object. -/
theorem set_property_vivifies_witness :
    ((ScriptObjectData.base_new none).set_property ⟨0, 0⟩ (.number 7) 0).2 = .ok .stored ∧
    lookupKey ((ScriptObjectData.base_new none).set_property ⟨0, 0⟩ (.number 7) 0).1.values
      ⟨0, 0⟩ = some (.dynamic (.number 7)) ∧
    ((ScriptObjectData.base_new none).set_property ⟨0, 0⟩ (.number 7) 0).1.has_property
      ⟨0, 0⟩ = true ∧
    ((ScriptObjectData.base_new none).set_property ⟨0, 0⟩ (.number 7) 0).1.get_property
      ⟨0, 0⟩ 0 = .ok (.immediate (.number 7)) :=
  set_property_vivifies (ScriptObjectData.base_new none) ⟨0, 0⟩ (.number 7) 0 (by decide)

/-- C5: half-installed virtual properties fail with MissingAccessor —
`set_property` on a Virtual whose setter half is absent, and `get_property`
on a Virtual whose getter half is absent. -/
theorem half_virtual_missing_accessor (d : ScriptObjectData) (n : QName)
    (v : Value) (thisObj : Obj) (go so : Option Executable) :
    (lookupKey d.values n = some (.virtualProp go none) →
      (d.set_property n v thisObj).2 = .error .missingAccessor) ∧
    (lookupKey d.values n = some (.virtualProp none so) →
      d.get_property n thisObj = .error .missingAccessor) := by
  constructor
  · intro h
    simp [ScriptObjectData.set_property, h, Property.set]
  · intro h
    simp [ScriptObjectData.get_property, h, Property.get]

/-- Witness for `half_virtual_missing_accessor`: a getter-only entry rejects
`set_property`, a setter-only entry rejects `get_property`. -/
theorem half_virtual_missing_accessor_witness :
    ((ScriptObjectData.mk [(⟨0, 0⟩, .virtualProp (some 1) none)] [] none).set_property
      ⟨0, 0⟩ (.number 7) 0).2 = .error .missingAccessor ∧
    (ScriptObjectData.mk [(⟨0, 0⟩, .virtualProp none (some 2))] [] none).get_property
      ⟨0, 0⟩ 0 = .error .missingAccessor :=
  ⟨(half_virtual_missing_accessor (ScriptObjectData.mk
      [(⟨0, 0⟩, .virtualProp (some 1) none)] [] none) ⟨0, 0⟩ (.number 7) 0
      (some 1) none).1 (by decide),
   (half_virtual_missing_accessor (ScriptObjectData.mk
      [(⟨0, 0⟩, .virtualProp none (some 2))] [] none) ⟨0, 0⟩ (.number 7) 0
      (some 1) (some 2)).2 (by decide)⟩

/-- C6: `install_dynamic_property` always succeeds and unconditionally
replaces whatever entry `n` had with a Dynamic entry holding `v`; afterwards
`has_property` is `true` and `get_property` returns `v` immediately. -/
theorem install_dynamic_property_spec (d : ScriptObjectData) (n : QName)
    (v : Value) (thisObj : Obj) :
    (d.install_dynamic_property n v).2 = .ok () ∧
    (d.install_dynamic_property n v).1.values = insertKey d.values n (.dynamic v) ∧
    lookupKey (d.install_dynamic_property n v).1.values n = some (.dynamic v) ∧
    (d.install_dynamic_property n v).1.has_property n = true ∧
    (d.install_dynamic_property n v).1.get_property n thisObj =
      .ok (.immediate v) := by
  refine ⟨rfl, rfl, ?_, ?_, ?_⟩ <;>
    simp [ScriptObjectData.install_dynamic_property, ScriptObjectData.has_property,
      ScriptObjectData.get_property, lookup_insert_self,
      Property.new_dynamic_property, Property.get]

/-- C8: allocation sets the prototype link as requested — `bare_object`
yields a handle whose stored prototype is `none`, `object P` a handle whose
stored prototype is `some P`. -/
theorem alloc_proto_links (h : Heap) (P : Obj) :
    (ScriptObject.bare_object h).2.protoOf (ScriptObject.bare_object h).1 =
      some none ∧
    (ScriptObject.object h P).2.protoOf (ScriptObject.object h P).1 =
      some (some P) := by
  constructor <;>
    simp [ScriptObject.bare_object, ScriptObject.object, Heap.allocate,
      Heap.protoOf, ScriptObjectData.base_new]

/-- C9: the prototype link is fixed at allocation — every exposed mutating
operation (`set_property`, `set_slot`, `install_method`, `install_getter`,
`install_setter`, `install_dynamic_property`) leaves the `proto` field of the
object's storage unchanged, whether the operation succeeds or fails. -/
theorem ops_preserve_proto (op : Op) (d : ScriptObjectData) :
    ((applyOp op d).1).proto = d.proto := by
  cases op with
  | setProp n v t =>
    simp only [applyOp, ScriptObjectData.set_property]
    cases lookupKey d.values n with
    | none => simp
    | some p =>
      cases hp : p.set t v with
      | ok pe => obtain ⟨p', eff⟩ := pe; simp [hp]
      | error e => simp [hp]
  | setSlot i v =>
    simp only [applyOp, ScriptObjectData.set_slot]
    split <;> simp
  | instMethod n f => simp [applyOp, ScriptObjectData.install_method]
  | instGetter n g =>
    simp only [applyOp, ScriptObjectData.install_getter]
    split <;> (try split) <;> simp
  | instSetter n s =>
    simp only [applyOp, ScriptObjectData.install_setter]
    split <;> (try split) <;> simp
  | instDyn n v => simp [applyOp, ScriptObjectData.install_dynamic_property]

theorem get_slot_oob (d : ScriptObjectData) (i : Nat) (h : d.slots.length ≤ i) :
    d.get_slot i = .error (.slotOutOfBounds i) := by
  have hn : d.slots[i]? = none := by
    rw [List.getElem?_eq_none]
    exact h
  simp [ScriptObjectData.get_slot, hn]

/-- C4: slot bounds and round-trip — for an in-bounds index, `set_slot`
succeeds, a subsequent `get_slot` returns the value, and the slot length is
unchanged; for an out-of-bounds index, `get_slot` and `set_slot` fail with
the out-of-bounds error, and keep failing after any sequence of other
operations, since no operation ever changes the slot count. -/
theorem slot_bounds_roundtrip (d : ScriptObjectData) (i : Nat) (v : Value) :
    (i < d.slots.length →
      (d.set_slot i v).2 = .ok () ∧
      (d.set_slot i v).1.get_slot i = .ok v ∧
      (d.set_slot i v).1.slots.length = d.slots.length) ∧
    (d.slots.length ≤ i →
      d.get_slot i = .error (.slotOutOfBounds i) ∧
      (d.set_slot i v).2 = .error (.slotOutOfBounds i) ∧
      ∀ l : List Op,
        (runOps l d).get_slot i = .error (.slotOutOfBounds i) ∧
        ((runOps l d).set_slot i v).2 = .error (.slotOutOfBounds i)) := by
  constructor
  · intro hi
    have hv : (d.slots.set i v)[i]? = some v := by
      rw [List.getElem?_set_self]
      exact hi
    refine ⟨?_, ?_, ?_⟩ <;>
      simp [ScriptObjectData.set_slot, hi, ScriptObjectData.get_slot, hv]
  · intro hi
    have hlen : ∀ l : List Op, (runOps l d).slots.length ≤ i := by
      intro l
      rw [runOps_slots_length]
      exact hi
    refine ⟨get_slot_oob d i hi, ?_, ?_⟩
    · simp [ScriptObjectData.set_slot, Nat.not_lt.mpr hi]
    · intro l
      exact ⟨get_slot_oob _ i (hlen l),
        by simp [ScriptObjectData.set_slot, Nat.not_lt.mpr (hlen l)]⟩

/-- Witness for `slot_bounds_roundtrip`, the spec's concrete scenario:
slots `[10, 20]`, `set_slot 0 99` then `get_slot 0 = 99`, and `get_slot 2`
fails out-of-bounds. -/
theorem slot_bounds_roundtrip_witness :
    ((ScriptObjectData.mk [] [.number 10, .number 20] none).set_slot 0 (.number 99)).2 =
      .ok () ∧
    ((ScriptObjectData.mk [] [.number 10, .number 20] none).set_slot 0
      (.number 99)).1.get_slot 0 = .ok (.number 99) ∧
    (ScriptObjectData.mk [] [.number 10, .number 20] none).get_slot 2 =
      .error (.slotOutOfBounds 2) :=
  ⟨((slot_bounds_roundtrip (ScriptObjectData.mk [] [.number 10, .number 20] none)
      0 (.number 99)).1 (by decide)).1,
   ((slot_bounds_roundtrip (ScriptObjectData.mk [] [.number 10, .number 20] none)
      0 (.number 99)).1 (by decide)).2.1,
   ((slot_bounds_roundtrip (ScriptObjectData.mk [] [.number 10, .number 20] none)
      2 (.number 99)).2 (by decide)).1⟩

/-- C7: default construction delegates to the invoked object — `construct`
invoked on a valid handle `A` succeeds, returning the freshly allocated pair;
the fresh handle differs from `A`, its storage is `base_new (some A)` (so its
prototype is `some A`), and that storage has no own properties and no
slots. -/
theorem construct_allocates_fresh (h : Heap) (A : Obj) (args : List Value)
    (hA : A < h.next) :
    ScriptObject.construct A args h = .ok (ScriptObject.object h A) ∧
    (ScriptObject.object h A).1 ≠ A ∧
    (ScriptObject.object h A).2.store (ScriptObject.object h A).1 =
      some (ScriptObjectData.base_new (some A)) ∧
    (ScriptObject.object h A).2.protoOf (ScriptObject.object h A).1 =
      some (some A) ∧
    (∀ n : QName, (ScriptObjectData.base_new (some A)).has_property n = false) ∧
    (ScriptObjectData.base_new (some A)).slots = [] := by
  refine ⟨rfl, ?_, ?_, ?_, ?_, rfl⟩
  · show h.next ≠ A
    exact ne_of_gt hA
  · simp [ScriptObject.object, Heap.allocate]
  · simp [ScriptObject.object, Heap.allocate, Heap.protoOf, ScriptObjectData.base_new]
  · intro n
    simp [ScriptObjectData.base_new, ScriptObjectData.has_property, lookupKey]

/-- Witness for `construct_allocates_fresh` on a one-object heap. -/
theorem construct_allocates_fresh_witness :
    ScriptObject.construct 0 [] (Heap.mk 1 fun _ => none) =
      .ok (ScriptObject.object (Heap.mk 1 fun _ => none) 0) ∧
    (ScriptObject.object (Heap.mk 1 fun _ => none) 0).1 ≠ 0 ∧
    (ScriptObjectData.base_new (some 0)).has_property ⟨0, 0⟩ = false :=
  ⟨(construct_allocates_fresh (Heap.mk 1 fun _ => none) 0 [] (by decide)).1,
   (construct_allocates_fresh (Heap.mk 1 fun _ => none) 0 [] (by decide)).2.1,
   (construct_allocates_fresh (Heap.mk 1 fun _ => none) 0 [] (by decide)).2.2.2.2.1 ⟨0, 0⟩⟩

/-- C10: every allocation path stores a `base_new` record, whose slot array
has length 0; no exposed operation changes the slot count, so on a freshly
allocated object `get_slot` and `set_slot` fail out-of-bounds at every index,
before and after any sequence of operations. -/
theorem fresh_object_slots_oob (h : Heap) (P A : Obj) (args : List Value)
    (i : Nat) (v : Value) (l : List Op) :
    (ScriptObject.bare_object h).2.store (ScriptObject.bare_object h).1 =
      some (ScriptObjectData.base_new none) ∧
    (ScriptObject.object h P).2.store (ScriptObject.object h P).1 =
      some (ScriptObjectData.base_new (some P)) ∧
    ScriptObject.construct A args h = .ok (ScriptObject.object h A) ∧
    (∀ p : Option Obj, (ScriptObjectData.base_new p).slots.length = 0) ∧
    (∀ d : ScriptObjectData, d.slots.length = 0 →
      (runOps l d).get_slot i = .error (.slotOutOfBounds i) ∧
      ((runOps l d).set_slot i v).2 = .error (.slotOutOfBounds i)) := by
  refine ⟨?_, ?_, rfl, fun p => rfl, ?_⟩
  · simp [ScriptObject.bare_object, Heap.allocate]
  · simp [ScriptObject.object, Heap.allocate]
  · intro d hd
    have hlen : (runOps l d).slots.length ≤ i := by
      rw [runOps_slots_length, hd]
      exact Nat.zero_le i
    exact ⟨get_slot_oob _ i hlen,
      by simp [ScriptObjectData.set_slot, Nat.not_lt.mpr hlen]⟩

/-- Witness for `fresh_object_slots_oob`: a fresh bare object's slots stay
out of bounds at index 0 even after a successful `set_property` and a failed
`set_slot`, and index 3 fails on the untouched fresh object. -/
theorem fresh_object_slots_oob_witness :
    (runOps [Op.setProp ⟨0, 0⟩ (.number 1) 0, Op.setSlot 0 (.number 2)]
      (ScriptObjectData.base_new none)).get_slot 0 = .error (.slotOutOfBounds 0) ∧
    ((runOps [] (ScriptObjectData.base_new none)).set_slot 3 (.number 5)).2 =
      .error (.slotOutOfBounds 3) :=
  ⟨((fresh_object_slots_oob (Heap.mk 0 fun _ => none) 0 0 [] 0 (.number 2)
      [Op.setProp ⟨0, 0⟩ (.number 1) 0, Op.setSlot 0 (.number 2)]).2.2.2.2
      (ScriptObjectData.base_new none) rfl).1,
   ((fresh_object_slots_oob (Heap.mk 0 fun _ => none) 0 0 [] 3 (.number 5)
      []).2.2.2.2 (ScriptObjectData.base_new none) rfl).2⟩

theorem install_getter_ok (d : ScriptObjectData) (n : QName) (g : Executable)
    (go so : Option Executable)
    (h : lookupKey d.values n = none ∧ go = none ∧ so = none ∨
      lookupKey d.values n = some (.virtualProp go so)) :
    (d.install_getter n g).2 = .ok () ∧
    lookupKey (d.install_getter n g).1.values n =
      some (.virtualProp (some g) so) := by
  rcases h with ⟨h, rfl, rfl⟩ | h
  · constructor <;>
      simp [ScriptObjectData.install_getter, h, lookup_insert_self,
        Property.new_virtual, Property.install_virtual_getter]
  · constructor <;>
      simp [ScriptObjectData.install_getter, h, lookup_insert_self,
        Property.install_virtual_getter]

theorem install_setter_ok (d : ScriptObjectData) (n : QName) (s : Executable)
    (go so : Option Executable)
    (h : lookupKey d.values n = none ∧ go = none ∧ so = none ∨
      lookupKey d.values n = some (.virtualProp go so)) :
    (d.install_setter n s).2 = .ok () ∧
    lookupKey (d.install_setter n s).1.values n =
      some (.virtualProp go (some s)) := by
  rcases h with ⟨h, rfl, rfl⟩ | h
  · constructor <;>
      simp [ScriptObjectData.install_setter, h, lookup_insert_self,
        Property.new_virtual, Property.install_virtual_setter]
  · constructor <;>
      simp [ScriptObjectData.install_setter, h, lookup_insert_self,
        Property.install_virtual_setter]

/-- C1 counterexample: on an object whose registry already binds the name to
a Dynamic entry, running `install_getter` then `install_setter` leaves the
Dynamic entry in place (both installs fail with the not-a-virtual-property
error and touch nothing), so the final entry is not the Full Virtual the
claim asserts, and `get_property` does not invoke the getter. -/
theorem install_order_counterexample :
    lookupKey ((((ScriptObjectData.mk [(⟨0, 0⟩, .dynamic (.number 5))] [] none
        ).install_getter ⟨0, 0⟩ 1).1.install_setter ⟨0, 0⟩ 2).1).values ⟨0, 0⟩ =
      some (.dynamic (.number 5)) ∧
    lookupKey ((((ScriptObjectData.mk [(⟨0, 0⟩, .dynamic (.number 5))] [] none
        ).install_getter ⟨0, 0⟩ 1).1.install_setter ⟨0, 0⟩ 2).1).values ⟨0, 0⟩ ≠
      some (.virtualProp (some 1) (some 2)) ∧
    ((((ScriptObjectData.mk [(⟨0, 0⟩, .dynamic (.number 5))] [] none
        ).install_getter ⟨0, 0⟩ 1).1.install_setter ⟨0, 0⟩ 2).1).get_property
      ⟨0, 0⟩ 0 ≠ .ok (.deferred 1 0) ∧
    (((((ScriptObjectData.mk [(⟨0, 0⟩, .dynamic (.number 5))] [] none
        ).install_getter ⟨0, 0⟩ 1).1.install_setter ⟨0, 0⟩ 2).1).set_property
      ⟨0, 0⟩ (.number 7) 0).2 ≠ .ok (.invoked 2 0 (.number 7)) := by
  decide

/-- C1 (amended): accessor installation is commutative per name on every
object whose own registry entry for the name is absent or already a Virtual:
getter-then-setter and setter-then-getter both succeed and yield the same
final registry entry, the Full Virtual with that getter and setter;
afterwards `get_property` invokes the getter and `set_property` invokes the
setter, in either order. -/
theorem install_order_commutes (d : ScriptObjectData) (n : QName)
    (g s : Executable) (v : Value) (thisObj : Obj)
    (h : lookupKey d.values n = none ∨
      ∃ go so, lookupKey d.values n = some (.virtualProp go so)) :
    (d.install_getter n g).2 = .ok () ∧
    ((d.install_getter n g).1.install_setter n s).2 = .ok () ∧
    (d.install_setter n s).2 = .ok () ∧
    ((d.install_setter n s).1.install_getter n g).2 = .ok () ∧
    lookupKey ((d.install_getter n g).1.install_setter n s).1.values n =
      some (.virtualProp (some g) (some s)) ∧
    lookupKey ((d.install_setter n s).1.install_getter n g).1.values n =
      some (.virtualProp (some g) (some s)) ∧
    ((d.install_getter n g).1.install_setter n s).1.get_property n thisObj =
      .ok (.deferred g thisObj) ∧
    (((d.install_getter n g).1.install_setter n s).1.set_property n v thisObj).2 =
      .ok (.invoked s thisObj v) ∧
    ((d.install_setter n s).1.install_getter n g).1.get_property n thisObj =
      .ok (.deferred g thisObj) ∧
    (((d.install_setter n s).1.install_getter n g).1.set_property n v thisObj).2 =
      .ok (.invoked s thisObj v) := by
  have hstart : ∃ go so,
      lookupKey d.values n = none ∧ go = none ∧ so = (none : Option Executable) ∨
      lookupKey d.values n = some (.virtualProp go so) := by
    rcases h with h | ⟨go, so, h⟩
    · exact ⟨none, none, Or.inl ⟨h, rfl, rfl⟩⟩
    · exact ⟨go, so, Or.inr h⟩
  obtain ⟨go, so, h0⟩ := hstart
  obtain ⟨hg2, hg1⟩ := install_getter_ok d n g go so h0
  obtain ⟨hgs2, hgs1⟩ := install_setter_ok _ n s (some g) so (Or.inr hg1)
  obtain ⟨hs2, hs1⟩ := install_setter_ok d n s go so h0
  obtain ⟨hsg2, hsg1⟩ := install_getter_ok _ n g go (some s) (Or.inr hs1)
  refine ⟨hg2, hgs2, hs2, hsg2, hgs1, hsg1, ?_, ?_, ?_, ?_⟩ <;>
    simp [ScriptObjectData.get_property, ScriptObjectData.set_property,
      hgs1, hsg1, Property.get, Property.set]

/-- Witness for `install_order_commutes` on a fresh bare object, the spec's
concrete scenario: after installing getter 1 then setter 2 (and in the
reverse order) on name `(0,0)`, the entry is the Full Virtual, `get_property`
defers to getter 1, and `set_property 7` invokes setter 2 with 7. -/
theorem install_order_commutes_witness :
    lookupKey (((ScriptObjectData.base_new none).install_getter ⟨0, 0⟩ 1).1.install_setter
      ⟨0, 0⟩ 2).1.values ⟨0, 0⟩ = some (.virtualProp (some 1) (some 2)) ∧
    lookupKey (((ScriptObjectData.base_new none).install_setter ⟨0, 0⟩ 2).1.install_getter
      ⟨0, 0⟩ 1).1.values ⟨0, 0⟩ = some (.virtualProp (some 1) (some 2)) ∧
    (((ScriptObjectData.base_new none).install_getter ⟨0, 0⟩ 1).1.install_setter
      ⟨0, 0⟩ 2).1.get_property ⟨0, 0⟩ 0 = .ok (.deferred 1 0) ∧
    ((((ScriptObjectData.base_new none).install_getter ⟨0, 0⟩ 1).1.install_setter
      ⟨0, 0⟩ 2).1.set_property ⟨0, 0⟩ (.number 7) 0).2 = .ok (.invoked 2 0 (.number 7)) :=
  ⟨(install_order_commutes (ScriptObjectData.base_new none) ⟨0, 0⟩ 1 2 (.number 7) 0
      (Or.inl rfl)).2.2.2.2.1,
   (install_order_commutes (ScriptObjectData.base_new none) ⟨0, 0⟩ 1 2 (.number 7) 0
      (Or.inl rfl)).2.2.2.2.2.1,
   (install_order_commutes (ScriptObjectData.base_new none) ⟨0, 0⟩ 1 2 (.number 7) 0
      (Or.inl rfl)).2.2.2.2.2.2.1,
   (install_order_commutes (ScriptObjectData.base_new none) ⟨0, 0⟩ 1 2 (.number 7) 0
      (Or.inl rfl)).2.2.2.2.2.2.2.1⟩
